import Mathlib

/-!
Verification development for the DEXX-TER license-key issuance and
verification service (Express routes in `server/routes.ts`, JSON-file
storage).  The route handlers are embedded as pure Lean functions over an
explicit `Store` state; the storage layer (`storage.ts`, absent from the
sources) is modelled from the spec's boundary operations (§6).
-/

namespace Dexter

/-- A license key record (data model §3 and the fields used by
`routes.ts`: id, keyString, game, resellerId, deviceLimit, expiryDate,
isRevoked, createdAt).  Timestamps are Nat milliseconds. -/
structure Key where
  id : Nat
  keyString : String
  game : String
  resellerId : Nat
  deviceLimit : Nat
  expiryDate : Nat
  isRevoked : Bool
  createdAt : Nat
deriving DecidableEq

/-- A device-to-key binding (§3 Device). -/
structure Device where
  keyId : Nat
  deviceId : String
deriving DecidableEq

/-- A reseller account with its credit balance (§3 Reseller). -/
structure Reseller where
  id : Nat
  username : String
  password : String
  credits : Int
  isActive : Bool
  registrationDate : Nat
deriving DecidableEq

/-- The whole persistent state touched by the handlers under study:
keys, devices and resellers, plus the surrogate-id counter for new keys. -/
structure Store where
  keys : List Key
  devices : List Device
  resellers : List Reseller
  nextKeyId : Nat
deriving DecidableEq

/-- Modelled from the spec: `findKeyByString` / `storage.getKey` (§6) —
looks a key up by its key string; `storage.ts` is not in the sources. -/
def getKey (s : Store) (ks : String) : Option Key :=
  s.keys.find? (fun k => k.keyString == ks)

/-- Modelled from the spec: `listDevicesForKey` / `storage.getDevicesByKeyId`
(§6) — the devices bound to a key. -/
def getDevicesByKeyId (s : Store) (kid : Nat) : List Device :=
  s.devices.filter (fun d => d.keyId == kid)

/-- Modelled from the spec: `insertDevice` / `storage.addDevice` (§6) —
appends a device binding. -/
def addDevice (s : Store) (kid : Nat) (d : String) : Store :=
  { s with devices := s.devices ++ [⟨kid, d⟩] }

/-- Modelled from the spec: `findReseller` / `storage.getReseller` (§6). -/
def getReseller (s : Store) (uid : Nat) : Option Reseller :=
  s.resellers.find? (fun r => r.id == uid)

/-- Modelled from the spec: `adjustResellerCredits` /
`storage.updateResellerCredits` (§6) — adds `delta` to the balance. -/
def updateResellerCredits (s : Store) (uid : Nat) (delta : Int) : Store :=
  { s with resellers :=
      s.resellers.map (fun r =>
        if r.id == uid then { r with credits := r.credits + delta } else r) }

/-- The shape of the JSON verification verdicts returned by
`POST /api/verify` and `GET /api/verify/:key/:game/:deviceId`. -/
structure VerifyResponse where
  valid : Bool
  message : String
  expiry : Option Nat := none
  deviceLimit : Option Nat := none
  currentDevices : Option Nat := none
  canRegister : Option Bool := none
deriving DecidableEq

/-- The closed set of supported games (`gameEnum`, and the explicit list
checked by the GET verification route, lines 1059-1064). -/
def validGames : List String :=
  ["PUBG MOBILE", "LAST ISLAND OF SURVIVAL", "STANDOFF2"]

/-- `POST /api/verify` (routes.ts lines 952-1041): the mutating
verification entry point.  Returns the JSON verdict and the store after
the call (the store changes only when a new device is registered). -/
def verifyPost (s : Store) (now : Nat) (ks g d : String) :
    VerifyResponse × Store :=
  match getKey s ks with
  | none => ({ valid := false, message := "Invalid license key" }, s)
  | some key =>
    if key.game ≠ g then
      ({ valid := false, message := "License key is not valid for this game" }, s)
    else if key.isRevoked then
      ({ valid := false, message := "License key has been revoked" }, s)
    else if key.expiryDate ≤ now then
      ({ valid := false, message := "License key has expired",
         expiry := some key.expiryDate }, s)
    else
      let devices := getDevicesByKeyId s key.id
      if devices.any (fun dv => dv.deviceId == d) then
        ({ valid := true, expiry := some key.expiryDate,
           deviceLimit := some key.deviceLimit,
           currentDevices := some devices.length,
           message := "License valid" }, s)
      else if key.deviceLimit ≤ devices.length then
        ({ valid := false, expiry := some key.expiryDate,
           deviceLimit := some key.deviceLimit,
           currentDevices := some devices.length,
           message := "Device limit reached for this license key" }, s)
      else
        ({ valid := true, expiry := some key.expiryDate,
           deviceLimit := some key.deviceLimit,
           currentDevices := some (devices.length + 1),
           message := "License valid" }, addDevice s key.id d)

/-- Result of the GET verification route: a 400 bad-request rejection of
the parameters, or a 200 verdict. -/
inductive GetVerifyResult where
  | badRequest (message : String)
  | verdict (r : VerifyResponse)
deriving DecidableEq

/-- `GET /api/verify/:key/:game/:deviceId` (routes.ts lines 1044-1146):
the read-only verification entry point.  Never mutates the store; on
reaching step 7 it reports `canRegister` instead of registering. -/
def verifyGet (s : Store) (now : Nat) (ks g d : String) : GetVerifyResult :=
  if ks = "" ∨ g = "" ∨ d = "" then
    .badRequest "Missing required parameters. Need key, game, and deviceId."
  else if ¬ (validGames.contains g = true) then
    .badRequest "Invalid game. Must be one of: PUBG MOBILE, LAST ISLAND OF SURVIVAL, STANDOFF2"
  else
    match getKey s ks with
    | none => .verdict { valid := false, message := "Invalid license key" }
    | some key =>
      if key.game ≠ g then
        .verdict { valid := false, message := "License key is not valid for this game" }
      else if key.isRevoked then
        .verdict { valid := false, message := "License key has been revoked" }
      else if key.expiryDate ≤ now then
        .verdict { valid := false, message := "License key has expired",
                   expiry := some key.expiryDate }
      else
        let devices := getDevicesByKeyId s key.id
        if devices.any (fun dv => dv.deviceId == d) then
          .verdict { valid := true, expiry := some key.expiryDate,
                     deviceLimit := some key.deviceLimit,
                     currentDevices := some devices.length,
                     message := "License valid" }
        else if key.deviceLimit ≤ devices.length then
          .verdict { valid := false, expiry := some key.expiryDate,
                     deviceLimit := some key.deviceLimit,
                     currentDevices := some devices.length,
                     message := "Device limit reached for this license key" }
        else
          .verdict { valid := true, expiry := some key.expiryDate,
                     deviceLimit := some key.deviceLimit,
                     currentDevices := some devices.length,
                     canRegister := some true,
                     message := "License valid, device can be registered" }

/-- Witness store for the unknown-key claim: one key "A", queried with
the absent key string "B". -/
def c7Store : Store :=
  { keys := [{ id := 1, keyString := "A", game := "STANDOFF2", resellerId := 1,
               deviceLimit := 1, expiryDate := 100, isRevoked := false, createdAt := 0 }],
    devices := [], resellers := [], nextKeyId := 2 }

/-- Witness key for the device-limit boundary: deviceLimit 2. -/
def c1Key : Key :=
  { id := 1, keyString := "K1", game := "STANDOFF2", resellerId := 1,
    deviceLimit := 2, expiryDate := 100, isRevoked := false, createdAt := 0 }

/-- Witness store at the limit: 2 of 2 device slots used. -/
def c1StoreFull : Store :=
  { keys := [c1Key], devices := [⟨1, "D1"⟩, ⟨1, "D2"⟩], resellers := [], nextKeyId := 2 }

/-- Witness store below the limit: 1 of 2 device slots used. -/
def c1StoreFree : Store :=
  { keys := [c1Key], devices := [⟨1, "D1"⟩], resellers := [], nextKeyId := 2 }

/-- Store with a revoked PUBG MOBILE key, used to refute C2 as stated. -/
def c2Store : Store :=
  { keys := [{ id := 1, keyString := "K2", game := "PUBG MOBILE", resellerId := 1,
               deviceLimit := 1, expiryDate := 100, isRevoked := true, createdAt := 0 }],
    devices := [], resellers := [], nextKeyId := 2 }

/-- Store with a revoked STANDOFF2 key, an expired expiry and a bound
device, for the amended-C2 witness. -/
def c2Store' : Store :=
  { keys := [{ id := 1, keyString := "K2", game := "STANDOFF2", resellerId := 1,
               deviceLimit := 1, expiryDate := 3, isRevoked := true, createdAt := 0 }],
    devices := [⟨1, "D"⟩], resellers := [], nextKeyId := 2 }

/-- Store with a revoked key whose device "D" is already bound, used to
refute C5 as stated. -/
def c5Store : Store :=
  { keys := [{ id := 1, keyString := "K5", game := "STANDOFF2", resellerId := 1,
               deviceLimit := 1, expiryDate := 100, isRevoked := true, createdAt := 0 }],
    devices := [⟨1, "D"⟩], resellers := [], nextKeyId := 2 }

/-- Store with a healthy key and device "D" bound (1 of 2 slots), for the
amended-C5 witness. -/
def c5Store' : Store :=
  { keys := [{ id := 1, keyString := "K5", game := "STANDOFF2", resellerId := 1,
               deviceLimit := 2, expiryDate := 100, isRevoked := false, createdAt := 0 }],
    devices := [⟨1, "D"⟩], resellers := [], nextKeyId := 2 }

/-- The "step 7" condition of the verification state machine (§4.3): the
key is present, game-matching, not revoked, not expired, the device is
unseen and the device limit is not yet reached — exactly the states where
the two entry points are allowed to diverge. -/
def canRegisterCond (s : Store) (now : Nat) (ks g d : String) : Bool :=
  match getKey s ks with
  | none => false
  | some key =>
      (key.game == g) && !key.isRevoked && decide (now < key.expiryDate) &&
      !((getDevicesByKeyId s key.id).any (fun dv => dv.deviceId == d)) &&
      decide ((getDevicesByKeyId s key.id).length < key.deviceLimit)

/-- Witness store for the entry-point equivalence: key "K4" with one free
device slot, so "D2" hits step 7. -/
def c4Store : Store :=
  { keys := [{ id := 1, keyString := "K4", game := "STANDOFF2", resellerId := 1,
               deviceLimit := 2, expiryDate := 100, isRevoked := false, createdAt := 0 }],
    devices := [⟨1, "D1"⟩], resellers := [], nextKeyId := 2 }

/-- Outcome of the first phase of `POST /api/verify`, up to and including
the device-limit check (everything before the `await storage.addDevice`
suspension point at routes.ts line 1022): either a final verdict, or a
pending registration carrying the key, the deviceId and the stale device
count read at line 994. -/
inductive CheckOutcome where
  | done (r : VerifyResponse)
  | pending (key : Key) (d : String) (cnt : Nat)
deriving DecidableEq

/-- Phase 1 of `POST /api/verify` (routes.ts lines 954-1019): all checks,
no mutation. -/
def verifyCheck (s : Store) (now : Nat) (ks g d : String) : CheckOutcome :=
  match getKey s ks with
  | none => .done { valid := false, message := "Invalid license key" }
  | some key =>
    if key.game ≠ g then
      .done { valid := false, message := "License key is not valid for this game" }
    else if key.isRevoked then
      .done { valid := false, message := "License key has been revoked" }
    else if key.expiryDate ≤ now then
      .done { valid := false, message := "License key has expired",
              expiry := some key.expiryDate }
    else
      let devices := getDevicesByKeyId s key.id
      if devices.any (fun dv => dv.deviceId == d) then
        .done { valid := true, expiry := some key.expiryDate,
                deviceLimit := some key.deviceLimit,
                currentDevices := some devices.length,
                message := "License valid" }
      else if key.deviceLimit ≤ devices.length then
        .done { valid := false, expiry := some key.expiryDate,
                deviceLimit := some key.deviceLimit,
                currentDevices := some devices.length,
                message := "Device limit reached for this license key" }
      else .pending key d devices.length

/-- Phase 2 of `POST /api/verify` (routes.ts lines 1021-1034): performs the
pending registration, unconditionally — the code never re-reads the device
count after the suspension point. -/
def registerPhase (s : Store) : CheckOutcome → VerifyResponse × Store
  | .done r => (r, s)
  | .pending key d cnt =>
    ({ valid := true, expiry := some key.expiryDate,
       deviceLimit := some key.deviceLimit,
       currentDevices := some (cnt + 1),
       message := "License valid" }, addDevice s key.id d)

/-- Two concurrent `POST /api/verify` calls for deviceIds `d1` and `d2`
under the schedule check₁, check₂, register₁, register₂ — both phase-1
reads happen before either phase-2 write, which the single-threaded event
loop permits because the two phases are separated by awaited I/O and the
handler holds no lock. -/
def twoConcurrentVerify (s : Store) (now : Nat) (ks g d1 d2 : String) : Store :=
  let c1 := verifyCheck s now ks g d1
  let c2 := verifyCheck s now ks g d2
  let s1 := (registerPhase s c1).2
  (registerPhase s1 c2).2

/-- Store for the race: key "K6" with deviceLimit 1 and no devices. -/
def c6Store : Store :=
  { keys := [{ id := 1, keyString := "K6", game := "STANDOFF2", resellerId := 1,
               deviceLimit := 1, expiryDate := 100, isRevoked := false, createdAt := 0 }],
    devices := [], resellers := [], nextKeyId := 2 }

/-- The validated body of `POST /api/reseller/keys/generate`
(`insertKeySchema`): game, device limit, expiry, and the optional custom
key string (a JS-falsy empty custom string is modelled as `none`). -/
structure KeyData where
  game : String
  deviceLimit : Nat
  expiryDate : Nat
  keyString : Option String
deriving DecidableEq

/-- Modelled from the spec: `insertKey` / `storage.createKey` (§6) —
appends a new Key under the next surrogate id and returns it. -/
def createKey (s : Store) (kd : KeyData) (uid : Nat) (ks : String) : Key × Store :=
  let k : Key := { id := s.nextKeyId, keyString := ks, game := kd.game,
                   resellerId := uid, deviceLimit := kd.deviceLimit,
                   expiryDate := kd.expiryDate, isRevoked := false, createdAt := 0 }
  (k, { s with keys := s.keys ++ [k], nextKeyId := s.nextKeyId + 1 })

/-- The failure paths of the key-generation route (its 400/404 responses). -/
inductive GenFailure where
  | invalidGame
  | keyAlreadyExists
  | resellerNotFound
  | insufficientCredits
  | storageError
deriving DecidableEq

/-- Result of the key-generation route: the created keys plus the reported
remaining credits, or a failure. -/
inductive GenResult where
  | ok (keys : List Key) (remainingCredits : Int)
  | err (e : GenFailure)
deriving DecidableEq

/-- The JS default `req.body.count || 1` (routes.ts line 817): a missing or
zero (falsy) count behaves as 1. -/
def effectiveCount (count? : Option Nat) : Nat :=
  match count? with
  | none => 1
  | some 0 => 1
  | some n => n

/-- Outcome of the key-creation loop: the keys created, the store after
the loop, and whether it ran to completion. -/
structure LoopResult where
  keysCreated : List Key
  store : Store
  ok : Bool
deriving DecidableEq

/-- The key-creation loop of routes.ts lines 823-832, creating keys at
indices `i ..< i+n`.  `gen j` injects the string `generateKeyString` would
produce at index `j` (randomness made explicit); the first key keeps a
caller-supplied custom string.  `crash j` injects a thrown storage error
at index `j`: the exception aborts the loop, keeping the keys already
created (the route's catch block performs no rollback). -/
def generateLoop (uid : Nat) (kd : KeyData) (gen : Nat → String)
    (crash : Nat → Bool) : Nat → Nat → Store → LoopResult
  | _, 0, s => ⟨[], s, true⟩
  | i, Nat.succ n, s =>
    if crash i then ⟨[], s, false⟩
    else
      let ks := if i = 0 then kd.keyString.getD (gen 0) else gen i
      let c := createKey s kd uid ks
      let r := generateLoop uid kd gen crash (i + 1) n c.2
      ⟨c.1 :: r.keysCreated, r.store, r.ok⟩

/-- `POST /api/reseller/keys/generate` (routes.ts lines 766-863): validate
the game, reject a duplicate custom key string, load the reseller, check
credits against the (defaulted) count, create the keys, then debit the
balance by the count; an exception anywhere reaches the catch block with
no debit.  The best-effort reseller-file mirroring is out of scope. -/
def generateHandler (s : Store) (uid : Nat) (kd : KeyData) (count? : Option Nat)
    (gen : Nat → String) (crash : Nat → Bool) : GenResult × Store :=
  if validGames.contains kd.game then
    if (kd.keyString.map (fun ks => (getKey s ks).isSome)).getD false then
      (.err .keyAlreadyExists, s)
    else
      match getReseller s uid with
      | none => (.err .resellerNotFound, s)
      | some reseller =>
        let count := effectiveCount count?
        if reseller.credits < (count : Int) then (.err .insufficientCredits, s)
        else
          let r := generateLoop uid kd gen crash 0 count s
          if r.ok then
            (.ok r.keysCreated (reseller.credits - (count : Int)),
             updateResellerCredits r.store uid (-(count : Int)))
          else (.err .storageError, r.store)
  else (.err .invalidGame, s)

/-- The credit balance `getReseller` reports for `uid`, 0 when absent. -/
def creditsOf (s : Store) (uid : Nat) : Int :=
  match getReseller s uid with
  | some r => r.credits
  | none => 0

/-- Witness reseller with 5 credits. -/
def c3Reseller : Reseller :=
  { id := 1, username := "r1", password := "p", credits := 5, isActive := true,
    registrationDate := 0 }

/-- Witness store for issuance: empty key table, one reseller. -/
def c3Store : Store :=
  { keys := [], devices := [], resellers := [c3Reseller], nextKeyId := 1 }

/-- Witness request body: 3 STANDOFF2 keys, no custom key string. -/
def c3kd : KeyData :=
  { game := "STANDOFF2", deviceLimit := 2, expiryDate := 1000, keyString := none }

/-- Injected generated key strings for the witness run. -/
def c3gen : Nat → String :=
  fun i => if i = 0 then "GA" else if i = 1 then "GB" else "GC"

/-- The three keys the witness run creates. -/
def c3k (i : Nat) (ks : String) : Key :=
  { id := i, keyString := ks, game := "STANDOFF2", resellerId := 1,
    deviceLimit := 2, expiryDate := 1000, isRevoked := false, createdAt := 0 }

/-- The store after the witness run: 3 keys, balance 5-3=2. -/
def c3Store' : Store :=
  { keys := [c3k 1 "GA", c3k 2 "GB", c3k 3 "GC"], devices := [],
    resellers := [{ c3Reseller with credits := 2 }], nextKeyId := 4 }

/-- Witness reseller with 5 credits for the count-default run. -/
def c10Reseller : Reseller :=
  { id := 1, username := "r10", password := "p", credits := 5, isActive := true,
    registrationDate := 0 }

/-- Witness store for the count-default run. -/
def c10Store : Store :=
  { keys := [], devices := [], resellers := [c10Reseller], nextKeyId := 1 }

/-- Witness request with a custom key string and no count. -/
def c10kd : KeyData :=
  { game := "PUBG MOBILE", deviceLimit := 1, expiryDate := 500, keyString := some "CUST" }

/-- Injected generated key strings for the count-default run. -/
def c10gen : Nat → String := fun _ => "GEN"

/-- The game-to-prefix mapping inside `generateKeyString` (routes.ts lines
1150-1158); a game outside the supported set maps to the empty string. -/
def gameCode (game : String) : String :=
  if game = "PUBG MOBILE" then "PBGM"
  else if game = "LAST ISLAND OF SURVIVAL" then "LIOS"
  else if game = "STANDOFF2" then "STDF"
  else ""

/-- `generateKeyString` (routes.ts lines 1149-1167) with its three random
segments injected as parameters.  Modelled from the spec: the source draws
each segment as `nanoid(5).toUpperCase()` from the external nanoid
library, which is not part of this repository, so the segments appear here
as explicit inputs (fixed length 5 is carried as a hypothesis where
needed). -/
def generateKeyString (game s1 s2 s3 : String) : String :=
  gameCode game ++ "-" ++ s1 ++ "-" ++ s2 ++ "-" ++ s3

/-- Modelled from the spec: `setKeyRevoked` / `storage.revokeKey` (§4.4,
§6) — sets revoked=true on the key with the given id and returns it, or
none when the id is absent; bound devices are untouched (`storage.ts` is
not in the sources). -/
def revokeKey (s : Store) (kid : Nat) : Option Key × Store :=
  match s.keys.find? (fun k => k.id == kid) with
  | none => (none, s)
  | some k =>
    (some { k with isRevoked := true },
     { s with keys := s.keys.map (fun k' =>
         if k'.id == kid then { k' with isRevoked := true } else k') })

/-- Outcome of the admin key-deletion endpoint: 404, or the 200 body
`{success, message:"Key revoked successfully", key}`. -/
inductive AdminDeleteResult where
  | notFound
  | revokedOk (k : Key)
deriving DecidableEq

/-- `DELETE /api/admin/keys/:id` (routes.ts lines 440-456): despite the
DELETE verb the handler calls `storage.revokeKey` and answers "Key revoked
successfully"; an absent id yields 404 "Key not found". -/
def adminDeleteKey (s : Store) (kid : Nat) : AdminDeleteResult × Store :=
  match revokeKey s kid with
  | (none, s1) => (.notFound, s1)
  | (some k, s1) => (.revokedOk k, s1)

/-- Pre-state for the admin-delete claim: key id 1 with one bound device. -/
def c9Key : Key :=
  { id := 1, keyString := "K9", game := "STANDOFF2", resellerId := 1,
    deviceLimit := 1, expiryDate := 100, isRevoked := false, createdAt := 0 }

/-- Store holding `c9Key` and its device binding. -/
def c9Store : Store :=
  { keys := [c9Key], devices := [⟨1, "D"⟩], resellers := [], nextKeyId := 2 }

/-- Reseller with 2 credits for the batch-collision run. -/
def c8Reseller : Reseller :=
  { id := 1, username := "r8", password := "p", credits := 2, isActive := true,
    registrationDate := 0 }

/-- Store for the batch-collision run. -/
def c8Store : Store :=
  { keys := [], devices := [], resellers := [c8Reseller], nextKeyId := 1 }

/-- Request body for a batch of 2 STANDOFF2 keys, no custom string. -/
def c8kd : KeyData :=
  { game := "STANDOFF2", deviceLimit := 1, expiryDate := 100, keyString := none }

/-- Generated-string draws where the random nanoid segments happen to
repeat across the batch: every draw yields the same three segments. -/
def c8gen : Nat → String :=
  fun _ => generateKeyString "STANDOFF2" "AAAAA" "AAAAA" "AAAAA"

/-- The two keys the collision batch creates: distinct records (fresh
surrogate ids) carrying the same key string. -/
def c8k (i : Nat) : Key :=
  { id := i, keyString := "STDF-AAAAA-AAAAA-AAAAA", game := "STANDOFF2",
    resellerId := 1, deviceLimit := 1, expiryDate := 100, isRevoked := false,
    createdAt := 0 }

/-- The store after the collision batch: both keys inserted, balance 0. -/
def c8Store' : Store :=
  { keys := [c8k 1, c8k 2], devices := [],
    resellers := [{ c8Reseller with credits := 0 }], nextKeyId := 3 }

/-- C7: an unknown key string yields the ordinary structured verdict
`{valid:false, message:"Invalid license key"}` with no state change on the
mutating endpoint, and the same verdict (not a 400 error) on the read-only
endpoint whenever its parameter validation passes; `verifyPost` and
`verifyGet` are total functions, so no business-rule invalidity is an
exception. -/
theorem verify_unknown_key_structured (s : Store) (now : Nat) (ks g d : String)
    (h : getKey s ks = none) :
    verifyPost s now ks g d = ({ valid := false, message := "Invalid license key" }, s) ∧
    (validGames.contains g = true → ks ≠ "" → d ≠ "" →
      verifyGet s now ks g d = .verdict { valid := false, message := "Invalid license key" }) := by
  constructor
  · simp [verifyPost, h]
  · intro hg hks hd
    have hgne : g ≠ "" := by
      intro hg0
      rw [hg0] at hg
      simp [validGames] at hg
    have hg' : g ∈ validGames := by simpa using hg
    simp [verifyGet, h, hks, hd, hgne, hg']

theorem verify_unknown_key_structured_witness :
    getKey c7Store "B" = none ∧
    (verifyPost c7Store 5 "B" "STANDOFF2" "D" =
      ({ valid := false, message := "Invalid license key" }, c7Store) ∧
    (validGames.contains "STANDOFF2" = true → "B" ≠ "" → "D" ≠ "" →
      verifyGet c7Store 5 "B" "STANDOFF2" "D" =
        .verdict { valid := false, message := "Invalid license key" })) :=
  ⟨by decide, verify_unknown_key_structured c7Store 5 "B" "STANDOFF2" "D" (by decide)⟩

/-- C1: for a present, game-matching, non-revoked, non-expired key and an
unseen device, `POST /api/verify` rejects with "Device limit reached for
this license key" (reporting the current count and the limit, registering
nothing) exactly when the bound-device count is at least the key's
deviceLimit; below the limit it registers the device and returns valid. -/
theorem verify_device_limit_boundary (s : Store) (now : Nat) (ks g d : String)
    (key : Key) (hk : getKey s ks = some key) (hg : key.game = g)
    (hrev : key.isRevoked = false) (hexp : now < key.expiryDate)
    (hnew : (getDevicesByKeyId s key.id).any (fun dv => dv.deviceId == d) = false) :
    (key.deviceLimit ≤ (getDevicesByKeyId s key.id).length →
      verifyPost s now ks g d =
        ({ valid := false, expiry := some key.expiryDate,
           deviceLimit := some key.deviceLimit,
           currentDevices := some (getDevicesByKeyId s key.id).length,
           message := "Device limit reached for this license key" }, s)) ∧
    ((getDevicesByKeyId s key.id).length < key.deviceLimit →
      verifyPost s now ks g d =
        ({ valid := true, expiry := some key.expiryDate,
           deviceLimit := some key.deviceLimit,
           currentDevices := some ((getDevicesByKeyId s key.id).length + 1),
           message := "License valid" }, addDevice s key.id d)) := by
  have hexp' : ¬ key.expiryDate ≤ now := Nat.not_le.mpr hexp
  constructor
  · intro hlim
    simp [verifyPost, hk, hg, hrev, hexp', hnew, hlim]
  · intro hlt
    have hlim : ¬ key.deviceLimit ≤ (getDevicesByKeyId s key.id).length :=
      Nat.not_le.mpr hlt
    simp [verifyPost, hk, hg, hrev, hexp', hnew, hlim]

theorem verify_device_limit_boundary_witness :
    (getKey c1StoreFull "K1" = some c1Key ∧ c1Key.game = "STANDOFF2" ∧
     c1Key.isRevoked = false ∧ (5 : Nat) < c1Key.expiryDate ∧
     (getDevicesByKeyId c1StoreFull c1Key.id).any (fun dv => dv.deviceId == "D3") = false ∧
     c1Key.deviceLimit ≤ (getDevicesByKeyId c1StoreFull c1Key.id).length ∧
     verifyPost c1StoreFull 5 "K1" "STANDOFF2" "D3" =
       ({ valid := false, expiry := some c1Key.expiryDate,
          deviceLimit := some c1Key.deviceLimit,
          currentDevices := some (getDevicesByKeyId c1StoreFull c1Key.id).length,
          message := "Device limit reached for this license key" }, c1StoreFull)) ∧
    (getKey c1StoreFree "K1" = some c1Key ∧
     (getDevicesByKeyId c1StoreFree c1Key.id).any (fun dv => dv.deviceId == "D3") = false ∧
     (getDevicesByKeyId c1StoreFree c1Key.id).length < c1Key.deviceLimit ∧
     verifyPost c1StoreFree 5 "K1" "STANDOFF2" "D3" =
       ({ valid := true, expiry := some c1Key.expiryDate,
          deviceLimit := some c1Key.deviceLimit,
          currentDevices := some ((getDevicesByKeyId c1StoreFree c1Key.id).length + 1),
          message := "License valid" }, addDevice c1StoreFree c1Key.id "D3")) :=
  ⟨⟨by decide, by decide, by decide, by decide, by decide, by decide,
    (verify_device_limit_boundary c1StoreFull 5 "K1" "STANDOFF2" "D3" c1Key
      (by decide) (by decide) (by decide) (by decide) (by decide)).1 (by decide)⟩,
   ⟨by decide, by decide, by decide,
    (verify_device_limit_boundary c1StoreFree 5 "K1" "STANDOFF2" "D3" c1Key
      (by decide) (by decide) (by decide) (by decide) (by decide)).2 (by decide)⟩⟩

/-- C2 counterexample: a revoked key verified with a non-matching game does
NOT return the "revoked" message — the wrong-game check (routes.ts line
968) precedes the revocation check (line 976), so the verdict is the
wrong-game message on both endpoints. -/
theorem verify_revoked_not_dominant_counterexample :
    (getKey c2Store "K2").map Key.isRevoked = some true ∧
    (verifyPost c2Store 5 "K2" "STANDOFF2" "D").1.message =
      "License key is not valid for this game" ∧
    (verifyPost c2Store 5 "K2" "STANDOFF2" "D").1.message ≠
      "License key has been revoked" ∧
    verifyGet c2Store 5 "K2" "STANDOFF2" "D" =
      .verdict { valid := false, message := "License key is not valid for this game" } := by
  decide

/-- C2 amended: for a revoked key looked up with its matching game, both
verification entry points return invalid "License key has been revoked",
regardless of the deviceId, the current time and the expiry state, and the
mutating endpoint leaves the store unchanged. -/
theorem verify_revoked_dominates_matching_game (s : Store) (now : Nat)
    (ks g d : String) (key : Key) (hk : getKey s ks = some key)
    (hg : key.game = g) (hrev : key.isRevoked = true) :
    verifyPost s now ks g d =
      ({ valid := false, message := "License key has been revoked" }, s) ∧
    (validGames.contains g = true → ks ≠ "" → d ≠ "" →
      verifyGet s now ks g d =
        .verdict { valid := false, message := "License key has been revoked" }) := by
  constructor
  · simp [verifyPost, hk, hg, hrev]
  · intro hvg hks hd
    have hgne : g ≠ "" := by
      intro hg0
      rw [hg0] at hvg
      simp [validGames] at hvg
    have hvg' : g ∈ validGames := by simpa using hvg
    simp [verifyGet, hk, hg, hrev, hks, hd, hgne, hvg']

theorem verify_revoked_dominates_matching_game_witness :
    ((getKey c2Store' "K2").map Key.game = some "STANDOFF2" ∧
     (getKey c2Store' "K2").map Key.isRevoked = some true) ∧
    (verifyPost c2Store' 5 "K2" "STANDOFF2" "D" =
      ({ valid := false, message := "License key has been revoked" }, c2Store') ∧
    (validGames.contains "STANDOFF2" = true → "K2" ≠ "" → "D" ≠ "" →
      verifyGet c2Store' 5 "K2" "STANDOFF2" "D" =
        .verdict { valid := false, message := "License key has been revoked" })) :=
  ⟨by decide,
   verify_revoked_dominates_matching_game c2Store' 5 "K2" "STANDOFF2" "D"
     { id := 1, keyString := "K2", game := "STANDOFF2", resellerId := 1,
       deviceLimit := 1, expiryDate := 3, isRevoked := true, createdAt := 0 }
     (by decide) (by decide) (by decide)⟩

/-- C5 counterexample: the deviceId "D" is already bound to key "K5", yet
`verify` returns valid=false (the key is revoked), on both calls — so a
bound device does not by itself make repeated verification return
valid=true. -/
theorem verify_idempotent_registered_counterexample :
    (getDevicesByKeyId c5Store 1).any (fun dv => dv.deviceId == "D") = true ∧
    (verifyPost c5Store 5 "K5" "STANDOFF2" "D").1.valid = false ∧
    (verifyPost (verifyPost c5Store 5 "K5" "STANDOFF2" "D").2
        5 "K5" "STANDOFF2" "D").1.valid = false := by
  decide

/-- C5 amended: for a present, game-matching, non-revoked, non-expired key
whose deviceId is already bound, `POST /api/verify` returns valid=true
with the unchanged device count and does not mutate the store; hence a
second identical call returns the identical verdict — the device is never
re-registered or double-counted. -/
theorem verify_idempotent_registered_device (s : Store) (now : Nat)
    (ks g d : String) (key : Key) (hk : getKey s ks = some key)
    (hg : key.game = g) (hrev : key.isRevoked = false)
    (hexp : now < key.expiryDate)
    (hbound : (getDevicesByKeyId s key.id).any (fun dv => dv.deviceId == d) = true) :
    verifyPost s now ks g d =
      ({ valid := true, expiry := some key.expiryDate,
         deviceLimit := some key.deviceLimit,
         currentDevices := some (getDevicesByKeyId s key.id).length,
         message := "License valid" }, s) ∧
    verifyPost (verifyPost s now ks g d).2 now ks g d = verifyPost s now ks g d := by
  have hexp' : ¬ key.expiryDate ≤ now := Nat.not_le.mpr hexp
  have h1 : verifyPost s now ks g d =
      ({ valid := true, expiry := some key.expiryDate,
         deviceLimit := some key.deviceLimit,
         currentDevices := some (getDevicesByKeyId s key.id).length,
         message := "License valid" }, s) := by
    simp [verifyPost, hk, hg, hrev, hexp', hbound]
  exact ⟨h1, by rw [h1]; exact h1⟩

theorem verify_idempotent_registered_device_witness :
    ((getDevicesByKeyId c5Store' 1).any (fun dv => dv.deviceId == "D") = true) ∧
    (verifyPost c5Store' 5 "K5" "STANDOFF2" "D" =
      ({ valid := true, expiry := some 100, deviceLimit := some 2,
         currentDevices := some (getDevicesByKeyId c5Store' 1).length,
         message := "License valid" }, c5Store') ∧
     verifyPost (verifyPost c5Store' 5 "K5" "STANDOFF2" "D").2 5 "K5" "STANDOFF2" "D" =
       verifyPost c5Store' 5 "K5" "STANDOFF2" "D") :=
  ⟨by decide,
   verify_idempotent_registered_device c5Store' 5 "K5" "STANDOFF2" "D"
     { id := 1, keyString := "K5", game := "STANDOFF2", resellerId := 1,
       deviceLimit := 2, expiryDate := 100, isRevoked := false, createdAt := 0 }
     (by decide) (by decide) (by decide) (by decide) (by decide)⟩

/-- C4: for any supported game and non-empty parameters, the mutating and
the read-only verification endpoints agree everywhere outside step 7: the
GET verdict is exactly the POST verdict and the POST call leaves the store
unchanged.  In step 7 both are valid: POST registers the device and
reports count+1, GET reports the stale count with canRegister and mutates
nothing. -/
theorem verify_entry_points_equivalent (s : Store) (now : Nat) (ks g d : String)
    (hvg : validGames.contains g = true) (hks : ks ≠ "") (hd : d ≠ "") :
    (canRegisterCond s now ks g d = false →
      verifyGet s now ks g d = .verdict (verifyPost s now ks g d).1 ∧
      (verifyPost s now ks g d).2 = s) ∧
    (canRegisterCond s now ks g d = true →
      ∃ key, getKey s ks = some key ∧
        verifyPost s now ks g d =
          ({ valid := true, expiry := some key.expiryDate,
             deviceLimit := some key.deviceLimit,
             currentDevices := some ((getDevicesByKeyId s key.id).length + 1),
             message := "License valid" }, addDevice s key.id d) ∧
        verifyGet s now ks g d =
          .verdict { valid := true, expiry := some key.expiryDate,
                     deviceLimit := some key.deviceLimit,
                     currentDevices := some (getDevicesByKeyId s key.id).length,
                     canRegister := some true,
                     message := "License valid, device can be registered" }) := by
  have hgne : g ≠ "" := by
    intro hg0
    rw [hg0] at hvg
    simp [validGames] at hvg
  have hvg' : g ∈ validGames := by simpa using hvg
  constructor
  · intro hcond
    cases hkk : getKey s ks with
    | none =>
      constructor
      · simp [verifyGet, verifyPost, hkk, hks, hd, hgne, hvg']
      · simp [verifyPost, hkk]
    | some key =>
      by_cases h1 : key.game = g
      case neg =>
        constructor
        · simp [verifyGet, verifyPost, hkk, hks, hd, hgne, hvg', h1]
        · simp [verifyPost, hkk, h1]
      case pos =>
        cases h2 : key.isRevoked with
        | true =>
          constructor
          · simp [verifyGet, verifyPost, hkk, hks, hd, hgne, hvg', h1, h2]
          · simp [verifyPost, hkk, h1, h2]
        | false =>
          by_cases h3 : key.expiryDate ≤ now
          · constructor
            · simp [verifyGet, verifyPost, hkk, hks, hd, hgne, hvg', h1, h2, h3]
            · simp [verifyPost, hkk, h1, h2, h3]
          · cases h4 : (getDevicesByKeyId s key.id).any (fun dv => dv.deviceId == d) with
            | true =>
              constructor
              · simp [verifyGet, verifyPost, hkk, hks, hd, hgne, hvg', h1, h2, h3, h4]
              · simp [verifyPost, hkk, h1, h2, h3, h4]
            | false =>
              by_cases h5 : key.deviceLimit ≤ (getDevicesByKeyId s key.id).length
              · constructor
                · simp [verifyGet, verifyPost, hkk, hks, hd, hgne, hvg', h1, h2, h3, h4, h5]
                · simp [verifyPost, hkk, h1, h2, h3, h4, h5]
              · exfalso
                rw [canRegisterCond, hkk] at hcond
                simp [h1, h2, h3, h4, Nat.lt_of_not_le h5, Nat.lt_of_not_le h3] at hcond
  · intro hcond
    cases hkk : getKey s ks with
    | none =>
      rw [canRegisterCond, hkk] at hcond
      exact absurd hcond (by simp)
    | some key =>
      rw [canRegisterCond, hkk] at hcond
      simp only [Bool.and_eq_true, beq_iff_eq, Bool.not_eq_true', decide_eq_true_eq] at hcond
      obtain ⟨⟨⟨⟨h1, h2⟩, h3⟩, h4⟩, h5⟩ := hcond
      have h3' : ¬ key.expiryDate ≤ now := Nat.not_le.mpr h3
      have h5' : ¬ key.deviceLimit ≤ (getDevicesByKeyId s key.id).length :=
        Nat.not_le.mpr h5
      refine ⟨key, rfl, ?_, ?_⟩
      · simp [verifyPost, hkk, h1, h2, h3', h4, h5']
      · simp [verifyGet, hkk, hks, hd, hgne, hvg', h1, h2, h3', h4, h5']

theorem verify_entry_points_equivalent_witness :
    (validGames.contains "STANDOFF2" = true ∧ "K4" ≠ "" ∧ "D2" ≠ "") ∧
    ((canRegisterCond c4Store 5 "K4" "STANDOFF2" "D2" = false →
      verifyGet c4Store 5 "K4" "STANDOFF2" "D2" =
        .verdict (verifyPost c4Store 5 "K4" "STANDOFF2" "D2").1 ∧
      (verifyPost c4Store 5 "K4" "STANDOFF2" "D2").2 = c4Store) ∧
    (canRegisterCond c4Store 5 "K4" "STANDOFF2" "D2" = true →
      ∃ key, getKey c4Store "K4" = some key ∧
        verifyPost c4Store 5 "K4" "STANDOFF2" "D2" =
          ({ valid := true, expiry := some key.expiryDate,
             deviceLimit := some key.deviceLimit,
             currentDevices := some ((getDevicesByKeyId c4Store key.id).length + 1),
             message := "License valid" }, addDevice c4Store key.id "D2") ∧
        verifyGet c4Store 5 "K4" "STANDOFF2" "D2" =
          .verdict { valid := true, expiry := some key.expiryDate,
                     deviceLimit := some key.deviceLimit,
                     currentDevices := some (getDevicesByKeyId c4Store key.id).length,
                     canRegister := some true,
                     message := "License valid, device can be registered" })) :=
  ⟨⟨by decide, by decide, by decide⟩,
   verify_entry_points_equivalent c4Store 5 "K4" "STANDOFF2" "D2"
     (by decide) (by decide) (by decide)⟩

/-- Faithfulness of the phase split: a request that runs to completion
without interleaving is exactly `verifyPost`. -/
theorem verifyPost_eq_phases (s : Store) (now : Nat) (ks g d : String) :
    verifyPost s now ks g d = registerPhase s (verifyCheck s now ks g d) := by
  rw [verifyPost, verifyCheck]
  cases hkk : getKey s ks with
  | none => rfl
  | some key =>
    by_cases h1 : key.game ≠ g
    · simp [h1, registerPhase]
    · by_cases h2 : key.isRevoked <;> by_cases h3 : key.expiryDate ≤ now <;>
        cases h4 : (getDevicesByKeyId s key.id).any (fun dv => dv.deviceId == d) <;>
        by_cases h5 : key.deviceLimit ≤ (getDevicesByKeyId s key.id).length <;>
        simp [h1, h2, h3, h4, h5, registerPhase]

/-- C6: the device-limit check-then-insert is not serialized — under the
interleaved schedule both unseen devices pass the phase-1 check against
the same store and both register, leaving 2 devices bound to a key whose
deviceLimit is 1, violating the never-more-than-L guarantee the spec
requires. -/
theorem verify_device_limit_race :
    (getDevicesByKeyId (twoConcurrentVerify c6Store 5 "K6" "STANDOFF2" "A" "B") 1).length = 2 ∧
    (getKey c6Store "K6").map Key.deviceLimit = some 1 ∧
    (getDevicesByKeyId (verifyPost (verifyPost c6Store 5 "K6" "STANDOFF2" "A").2
        5 "K6" "STANDOFF2" "B").2 1).length = 1 := by
  decide

/-- The key-creation loop never touches the reseller table. -/
theorem generateLoop_resellers (uid : Nat) (kd : KeyData) (gen : Nat → String)
    (crash : Nat → Bool) :
    ∀ n i s, (generateLoop uid kd gen crash i n s).store.resellers = s.resellers := by
  intro n
  induction n with
  | zero => intro i s; rfl
  | succ m ih =>
    intro i s
    rw [generateLoop]
    by_cases hc : crash i
    · rw [if_pos hc]
    · rw [if_neg hc]
      exact ih (i + 1)
        (createKey s kd uid (if i = 0 then kd.keyString.getD (gen 0) else gen i)).2

/-- The key-creation loop only ever appends keys. -/
theorem generateLoop_keys_mono (uid : Nat) (kd : KeyData) (gen : Nat → String)
    (crash : Nat → Bool) :
    ∀ n i s, s.keys.length ≤ (generateLoop uid kd gen crash i n s).store.keys.length := by
  intro n
  induction n with
  | zero => intro i s; exact le_rfl
  | succ m ih =>
    intro i s
    rw [generateLoop]
    by_cases hc : crash i
    · rw [if_pos hc]
    · rw [if_neg hc]
      have h1 : s.keys.length ≤
          (createKey s kd uid (if i = 0 then kd.keyString.getD (gen 0) else gen i)).2.keys.length := by
        simp only [createKey, List.length_append]
        omega
      exact le_trans h1 (ih (i + 1) _)

/-- A completed key-creation loop for `n` keys creates exactly `n` keys. -/
theorem generateLoop_ok_length (uid : Nat) (kd : KeyData) (gen : Nat → String)
    (crash : Nat → Bool) :
    ∀ n i s, (generateLoop uid kd gen crash i n s).ok = true →
      (generateLoop uid kd gen crash i n s).keysCreated.length = n ∧
      (generateLoop uid kd gen crash i n s).store.keys.length = s.keys.length + n := by
  intro n
  induction n with
  | zero => intro i s _; exact ⟨rfl, rfl⟩
  | succ m ih =>
    intro i s hok
    rw [generateLoop] at hok ⊢
    by_cases hc : crash i
    · rw [if_pos hc] at hok
      simp at hok
    · rw [if_neg hc] at hok ⊢
      have hok' : (generateLoop uid kd gen crash (i + 1) m
          (createKey s kd uid (if i = 0 then kd.keyString.getD (gen 0) else gen i)).2).ok = true := hok
      obtain ⟨h1, h2⟩ := ih (i + 1) _ hok'
      have hlen : (createKey s kd uid
          (if i = 0 then kd.keyString.getD (gen 0) else gen i)).2.keys.length
            = s.keys.length + 1 := by
        simp only [createKey, List.length_append, List.length_cons, List.length_nil]
      constructor
      · show (generateLoop uid kd gen crash (i + 1) m
            (createKey s kd uid (if i = 0 then kd.keyString.getD (gen 0) else gen i)).2).keysCreated.length + 1
            = m + 1
        omega
      · show (generateLoop uid kd gen crash (i + 1) m
            (createKey s kd uid (if i = 0 then kd.keyString.getD (gen 0) else gen i)).2).store.keys.length
            = s.keys.length + (m + 1)
        omega

/-- Adjusting a reseller's credits rewrites exactly that balance. -/
theorem find?_update_credits (l : List Reseller) (uid : Nat) (δ : Int) :
    (l.map (fun r => if r.id == uid then { r with credits := r.credits + δ } else r)).find?
        (fun r => r.id == uid) =
      (l.find? (fun r => r.id == uid)).map
        (fun r => { r with credits := r.credits + δ }) := by
  induction l with
  | nil => rfl
  | cons a l ih =>
    cases h : (a.id == uid) with
    | true =>
      have h2 : (((if (a.id == uid) = true
          then { a with credits := a.credits + δ } else a) : Reseller).id == uid) = true := by
        rw [if_pos h]
        exact h
      rw [List.map_cons, @List.find?_cons_of_pos Reseller (fun r => r.id == uid) _ _ h2,
        @List.find?_cons_of_pos Reseller (fun r => r.id == uid) _ _ h]
      simp [h]
    | false =>
      have h2 : ¬ (((if (a.id == uid) = true
          then { a with credits := a.credits + δ } else a) : Reseller).id == uid) = true := by
        rw [if_neg (by simp [h])]
        simp [h]
      rw [List.map_cons, @List.find?_cons_of_neg Reseller (fun r => r.id == uid) _ _ h2,
        @List.find?_cons_of_neg Reseller (fun r => r.id == uid) _ _ (by simp [h]), ih]

/-- A credit adjustment is visible as exactly that delta on lookup. -/
theorem getReseller_update (s : Store) (uid : Nat) (δ : Int) :
    getReseller (updateResellerCredits s uid δ) uid =
      (getReseller s uid).map (fun r => { r with credits := r.credits + δ }) := by
  simp only [getReseller, updateResellerCredits]
  exact find?_update_credits s.resellers uid δ

/-- C3: issuing keys debits the reseller's balance by exactly the
requested count on success (creating exactly that many keys), and by
exactly 0 on every failure path — invalid game, duplicate custom key,
reseller not found, insufficient credits, and a storage failure anywhere
inside the creation loop (where the keys created before the failure are
kept but no credit is taken) — so the debit never exceeds the number of
keys actually created. -/
theorem issuance_credit_conservation (s : Store) (uid : Nat) (kd : KeyData)
    (count? : Option Nat) (gen : Nat → String) (crash : Nat → Bool) :
    (∀ keys rem s', generateHandler s uid kd count? gen crash = (.ok keys rem, s') →
      creditsOf s' uid = creditsOf s uid - (effectiveCount count? : Int) ∧
      keys.length = effectiveCount count? ∧
      s'.keys.length = s.keys.length + effectiveCount count? ∧
      rem = creditsOf s uid - (effectiveCount count? : Int)) ∧
    (∀ e s', generateHandler s uid kd count? gen crash = (.err e, s') →
      s'.resellers = s.resellers ∧ s.keys.length ≤ s'.keys.length) := by
  constructor
  · intro keys rem s' h
    rw [generateHandler] at h
    by_cases hvg : validGames.contains kd.game = true
    case neg =>
      rw [if_neg hvg] at h
      simp at h
    case pos =>
    rw [if_pos hvg] at h
    by_cases hdup : (kd.keyString.map (fun ks => (getKey s ks).isSome)).getD false = true
    case pos =>
      rw [if_pos hdup] at h
      simp at h
    case neg =>
    rw [if_neg hdup] at h
    cases hres : getReseller s uid with
    | none =>
      rw [hres] at h
      simp at h
    | some r =>
      rw [hres] at h
      simp only at h
      by_cases hcr : r.credits < (effectiveCount count? : Int)
      case pos =>
        rw [if_pos hcr] at h
        simp at h
      case neg =>
      rw [if_neg hcr] at h
      by_cases hok : (generateLoop uid kd gen crash 0 (effectiveCount count?) s).ok = true
      case neg =>
        rw [if_neg hok] at h
        simp at h
      case pos =>
      rw [if_pos hok] at h
      simp only [Prod.mk.injEq, GenResult.ok.injEq] at h
      obtain ⟨⟨hkeys, hrem⟩, hs'⟩ := h
      have hcs : creditsOf s uid = r.credits := by
        rw [creditsOf, hres]
      have hloopres :
          getReseller (generateLoop uid kd gen crash 0 (effectiveCount count?) s).store uid =
            getReseller s uid := by
        rw [getReseller, getReseller, generateLoop_resellers]
      obtain ⟨hlen1, hlen2⟩ := generateLoop_ok_length uid kd gen crash (effectiveCount count?) 0 s hok
      refine ⟨?_, ?_, ?_, ?_⟩
      · rw [← hs', creditsOf, getReseller_update, hloopres, hres, hcs]
        simp
        ring
      · rw [← hkeys, hlen1]
      · rw [← hs']
        have : (updateResellerCredits
            (generateLoop uid kd gen crash 0 (effectiveCount count?) s).store uid
            (-(effectiveCount count? : Int))).keys =
          (generateLoop uid kd gen crash 0 (effectiveCount count?) s).store.keys := rfl
        rw [this, hlen2]
      · rw [← hrem, hcs]
  · intro e s' h
    rw [generateHandler] at h
    by_cases hvg : validGames.contains kd.game = true
    case neg =>
      rw [if_neg hvg] at h
      simp only [Prod.mk.injEq] at h
      rw [← h.2]
      exact ⟨rfl, le_rfl⟩
    case pos =>
    rw [if_pos hvg] at h
    by_cases hdup : (kd.keyString.map (fun ks => (getKey s ks).isSome)).getD false = true
    case pos =>
      rw [if_pos hdup] at h
      simp only [Prod.mk.injEq] at h
      rw [← h.2]
      exact ⟨rfl, le_rfl⟩
    case neg =>
    rw [if_neg hdup] at h
    cases hres : getReseller s uid with
    | none =>
      rw [hres] at h
      simp only [Prod.mk.injEq] at h
      rw [← h.2]
      exact ⟨rfl, le_rfl⟩
    | some r =>
      rw [hres] at h
      simp only at h
      by_cases hcr : r.credits < (effectiveCount count? : Int)
      case pos =>
        rw [if_pos hcr] at h
        simp only [Prod.mk.injEq] at h
        rw [← h.2]
        exact ⟨rfl, le_rfl⟩
      case neg =>
      rw [if_neg hcr] at h
      by_cases hok : (generateLoop uid kd gen crash 0 (effectiveCount count?) s).ok = true
      case pos =>
        rw [if_pos hok] at h
        simp at h
      case neg =>
      rw [if_neg hok] at h
      simp only [Prod.mk.injEq] at h
      rw [← h.2]
      exact ⟨generateLoop_resellers uid kd gen crash (effectiveCount count?) 0 s,
        generateLoop_keys_mono uid kd gen crash (effectiveCount count?) 0 s⟩

theorem issuance_credit_conservation_witness :
    generateHandler c3Store 1 c3kd (some 3) c3gen (fun _ => false) =
      (.ok [c3k 1 "GA", c3k 2 "GB", c3k 3 "GC"] 2, c3Store') ∧
    (creditsOf c3Store' 1 = creditsOf c3Store 1 - (effectiveCount (some 3) : Int) ∧
     [c3k 1 "GA", c3k 2 "GB", c3k 3 "GC"].length = effectiveCount (some 3) ∧
     c3Store'.keys.length = c3Store.keys.length + effectiveCount (some 3) ∧
     (2 : Int) = creditsOf c3Store 1 - (effectiveCount (some 3) : Int)) :=
  ⟨by decide,
   (issuance_credit_conservation c3Store 1 c3kd (some 3) c3gen (fun _ => false)).1
     [c3k 1 "GA", c3k 2 "GB", c3k 3 "GC"] 2 c3Store' (by decide)⟩

/-- C10: a request body that omits `count` or supplies `count = 0` behaves
exactly as `count = 1` (the JS default `req.body.count || 1`): issuance
succeeds iff the balance is at least 1, creating exactly one key (with the
custom key string when present), debiting one credit and reporting
remainingCredits = prior balance - 1; a balance below 1 is rejected with
`Insufficient credits`. -/
theorem issuance_count_default (s : Store) (uid : Nat) (kd : KeyData)
    (count? : Option Nat) (gen : Nat → String) (crash : Nat → Bool)
    (hc : count? = none ∨ count? = some 0)
    (hvg : validGames.contains kd.game = true)
    (hdup : ∀ ks, kd.keyString = some ks → getKey s ks = none)
    (r : Reseller) (hres : getReseller s uid = some r)
    (hcrash : crash 0 = false) :
    ((1 : Int) ≤ r.credits →
      generateHandler s uid kd count? gen crash =
        (.ok [(createKey s kd uid (kd.keyString.getD (gen 0))).1] (r.credits - 1),
         updateResellerCredits (createKey s kd uid (kd.keyString.getD (gen 0))).2 uid (-1))) ∧
    (r.credits < 1 →
      generateHandler s uid kd count? gen crash = (.err .insufficientCredits, s)) := by
  have he : effectiveCount count? = 1 := by
    rcases hc with h | h <;> subst h <;> rfl
  have hdup' : (kd.keyString.map (fun ks => (getKey s ks).isSome)).getD false = false := by
    cases hks : kd.keyString with
    | none => rfl
    | some ks => simp [hdup ks hks]
  have hloop : generateLoop uid kd gen crash 0 1 s =
      ⟨[(createKey s kd uid (kd.keyString.getD (gen 0))).1],
       (createKey s kd uid (kd.keyString.getD (gen 0))).2, true⟩ := by
    rw [generateLoop, if_neg (by simp [hcrash])]
    rfl
  constructor
  · intro hcred
    have hnl : ¬ r.credits < ((1 : Nat) : Int) := not_lt.mpr hcred
    simp only [generateHandler, he]
    rw [if_pos hvg, if_neg (by simp [hdup'])]
    simp only [hres]
    rw [if_neg hnl, hloop]
    rfl
  · intro hcred
    have hl : r.credits < ((1 : Nat) : Int) := by exact_mod_cast hcred
    simp only [generateHandler, he]
    rw [if_pos hvg, if_neg (by simp [hdup'])]
    simp only [hres]
    rw [if_pos hl]

theorem issuance_count_default_witness :
    ((none : Option Nat) = none ∧ validGames.contains c10kd.game = true ∧
      getReseller c10Store 1 = some c10Reseller ∧ (1 : Int) ≤ c10Reseller.credits) ∧
    generateHandler c10Store 1 c10kd none c10gen (fun _ => false) =
      (.ok [(createKey c10Store c10kd 1 (c10kd.keyString.getD (c10gen 0))).1]
         (c10Reseller.credits - 1),
       updateResellerCredits
         (createKey c10Store c10kd 1 (c10kd.keyString.getD (c10gen 0))).2 1 (-1)) :=
  ⟨⟨rfl, by decide, by decide, by decide⟩,
   (issuance_count_default c10Store 1 c10kd none c10gen (fun _ => false)
      (Or.inl rfl) (by decide)
      (by intro ks hks; simp [c10kd] at hks; subst hks; decide)
      c10Reseller (by decide) rfl).1 (by decide)⟩

/-- Strings with equal character data are equal. -/
theorem string_eq_of_data_eq (a b : String) (h : a.data = b.data) : a = b := by
  cases a
  cases b
  exact congrArg String.mk h

/-- C8 counterexample: batch distinctness is not unconditional — the
generator's output is never re-checked against the store, so when the
random nanoid draws repeat, a batch of 2 STANDOFF2 keys carries the same
key string on two distinct key records. -/
theorem generateKeyString_batch_collision_counterexample :
    generateHandler c8Store 1 c8kd (some 2) c8gen (fun _ => false) =
      (.ok [c8k 1, c8k 2] 0, c8Store') ∧
    (c8k 1).keyString = (c8k 2).keyString ∧ c8k 1 ≠ c8k 2 := by
  decide

/-- C8 amended: for every supported game, `generateKeyString` produces
that game's fixed 4-character code ("PBGM", "LIOS", "STDF") followed by
"-" and the three injected random segments joined by "-" (so STANDOFF2
keys start with "STDF-"); the format is injective in the fixed-length-5
segments, hence the keys of a batch are distinct exactly when the random
segment draws differ. -/
theorem generateKeyString_format (g : String)
    (hg : validGames.contains g = true) (s1 s2 s3 t1 t2 t3 : String) :
    (gameCode g).length = 4 ∧
    (g = "PUBG MOBILE" →
      generateKeyString g s1 s2 s3 = "PBGM-" ++ s1 ++ "-" ++ s2 ++ "-" ++ s3) ∧
    (g = "LAST ISLAND OF SURVIVAL" →
      generateKeyString g s1 s2 s3 = "LIOS-" ++ s1 ++ "-" ++ s2 ++ "-" ++ s3) ∧
    (g = "STANDOFF2" →
      generateKeyString g s1 s2 s3 = "STDF-" ++ s1 ++ "-" ++ s2 ++ "-" ++ s3) ∧
    (s1.length = 5 → s2.length = 5 → t1.length = 5 → t2.length = 5 →
      generateKeyString g s1 s2 s3 = generateKeyString g t1 t2 t3 →
      s1 = t1 ∧ s2 = t2 ∧ s3 = t3) := by
  have hmem : g = "PUBG MOBILE" ∨ g = "LAST ISLAND OF SURVIVAL" ∨ g = "STANDOFF2" := by
    simpa [validGames] using hg
  refine ⟨?_, ?_, ?_, ?_, ?_⟩
  · rcases hmem with h | h | h <;> subst h <;> decide
  · intro h
    subst h
    rw [generateKeyString]
    have h1 : gameCode "PUBG MOBILE" = "PBGM" := by decide
    rw [h1]
    have h2 : ("PBGM" ++ "-" : String) = "PBGM-" := by decide
    rw [h2]
  · intro h
    subst h
    rw [generateKeyString]
    have h1 : gameCode "LAST ISLAND OF SURVIVAL" = "LIOS" := by decide
    rw [h1]
    have h2 : ("LIOS" ++ "-" : String) = "LIOS-" := by decide
    rw [h2]
  · intro h
    subst h
    rw [generateKeyString]
    have h1 : gameCode "STANDOFF2" = "STDF" := by decide
    rw [h1]
    have h2 : ("STDF" ++ "-" : String) = "STDF-" := by decide
    rw [h2]
  · intro l1 l2 l3 l4 heq
    rw [generateKeyString, generateKeyString] at heq
    have hd := congrArg String.data heq
    simp only [String.data_append, List.append_assoc] at hd
    have hd1 : s1.data ++ ("-".data ++ (s2.data ++ ("-".data ++ s3.data))) =
        t1.data ++ ("-".data ++ (t2.data ++ ("-".data ++ t3.data))) :=
      List.append_cancel_left (List.append_cancel_left hd)
    have hl1 : s1.data.length = t1.data.length := by
      have a1 : s1.data.length = 5 := l1
      have a2 : t1.data.length = 5 := l3
      omega
    obtain ⟨e1, hd2⟩ := List.append_inj hd1 hl1
    have hd3 : s2.data ++ ("-".data ++ s3.data) = t2.data ++ ("-".data ++ t3.data) :=
      List.append_cancel_left hd2
    have hl2 : s2.data.length = t2.data.length := by
      have a1 : s2.data.length = 5 := l2
      have a2 : t2.data.length = 5 := l4
      omega
    obtain ⟨e2, hd4⟩ := List.append_inj hd3 hl2
    have e3 : s3.data = t3.data := List.append_cancel_left hd4
    exact ⟨string_eq_of_data_eq _ _ e1, string_eq_of_data_eq _ _ e2,
      string_eq_of_data_eq _ _ e3⟩

theorem generateKeyString_format_witness :
    (validGames.contains "STANDOFF2" = true ∧ ("AAAAA" : String).length = 5 ∧
     ("BBBBB" : String).length = 5) ∧
    (gameCode "STANDOFF2").length = 4 ∧
    generateKeyString "STANDOFF2" "AAAAA" "BBBBB" "CCCCC" =
      "STDF-" ++ "AAAAA" ++ "-" ++ "BBBBB" ++ "-" ++ "CCCCC" ∧
    (("AAAAA" : String) = "AAAAA" ∧ ("BBBBB" : String) = "BBBBB" ∧
     ("CCCCC" : String) = "CCCCC") :=
  ⟨⟨by decide, by decide, by decide⟩,
   (generateKeyString_format "STANDOFF2" (by decide) "AAAAA" "BBBBB" "CCCCC"
      "AAAAA" "BBBBB" "CCCCC").1,
   (generateKeyString_format "STANDOFF2" (by decide) "AAAAA" "BBBBB" "CCCCC"
      "AAAAA" "BBBBB" "CCCCC").2.2.2.1 rfl,
   (generateKeyString_format "STANDOFF2" (by decide) "AAAAA" "BBBBB" "CCCCC"
      "AAAAA" "BBBBB" "CCCCC").2.2.2.2 (by decide) (by decide) (by decide)
     (by decide) rfl⟩

/-- C9 counterexample: after the admin delete endpoint runs on key id 1,
the Key record is still in the store (merely flagged revoked) and its
Device record is still present — nothing is removed or cascaded, contrary
to the claimed hard-delete semantics. -/
theorem admin_delete_cascade_counterexample :
    ((adminDeleteKey c9Store 1).2.keys.find? (fun k => k.id == 1)).isSome = true ∧
    (adminDeleteKey c9Store 1).2.keys =
      [{ c9Key with isRevoked := true }] ∧
    (adminDeleteKey c9Store 1).2.devices = [⟨1, "D"⟩] ∧
    (adminDeleteKey c9Store 1).1 = .revokedOk { c9Key with isRevoked := true } := by
  decide

/-- C9 amended: the admin key-deletion endpoint revokes rather than
deletes — on an existing key id it flags that key revoked, keeps the key
record and every bound device record in place, and reports the revoked
key; on an absent key id it reports NotFound and changes nothing. -/
theorem admin_delete_revokes (s : Store) (kid : Nat) :
    (∀ k, s.keys.find? (fun k' => k'.id == kid) = some k →
      adminDeleteKey s kid =
        (.revokedOk { k with isRevoked := true },
         { s with keys := s.keys.map (fun k' =>
             if k'.id == kid then { k' with isRevoked := true } else k') })) ∧
    (s.keys.find? (fun k' => k'.id == kid) = none →
      adminDeleteKey s kid = (.notFound, s)) := by
  constructor
  · intro k hk
    simp only [adminDeleteKey, revokeKey, hk]
  · intro h
    simp only [adminDeleteKey, revokeKey, h]

theorem admin_delete_revokes_witness :
    c9Store.keys.find? (fun k => k.id == 1) = some c9Key ∧
    adminDeleteKey c9Store 1 =
      (.revokedOk { c9Key with isRevoked := true },
       { c9Store with keys := c9Store.keys.map (fun k' =>
           if k'.id == 1 then { k' with isRevoked := true } else k') }) :=
  ⟨by decide, (admin_delete_revokes c9Store 1).1 c9Key (by decide)⟩

end Dexter
